import Mathlib

/-!
Shallow embedding of the trading-growth-calculator ledger logic from
`src/components/TradingCalculator.tsx` (rendered by `src/app/page.tsx`).
Monetary amounts, percentages and multipliers are JS numbers in the source;
they are modelled by exact rationals (`ℚ`).  In exact rational arithmetic no
NaN or infinity can arise, so the source's `isNaN`/`isFinite` fallback
branches (which can only fire on non-finite floats) are never taken and are
omitted from the embedding, as noted at each definition.
-/

/-- The possible outcomes of a trade (`type TradeOutcome` in the source).
`partWin` models the source's `'partial win'` case. -/
inductive TradeOutcome where
  | win
  | partWin
  | loss
  | breakeven
  | pending
deriving DecidableEq, Inhabited

/-- The trade record (`interface Trade` in the source).  `id` is the uuid
string; all numeric fields are modelled as `ℚ`; `nextSuggestedRisk` is the
optional field `nextSuggestedRisk?: number`. -/
structure Trade where
  id : String
  tradeNumber : Nat
  accountSize : ℚ
  riskPercentage : ℚ
  riskAmount : ℚ
  outcome : TradeOutcome
  winMultiplier : ℚ
  floatingPL : ℚ
  accountBalance : ℚ
  distanceToTarget : ℚ
  nextSuggestedRisk : Option ℚ
deriving DecidableEq, Inhabited

/-- The configuration the calculator closes over: `initialBalance`,
`profitTarget` (already resolved, i.e. after the `initialBalance * 1.08`
default), `defaultRiskPercentage` and `defaultWinMultiplier`. -/
structure Config where
  initialBalance : ℚ
  profitTarget : ℚ
  defaultRiskPercentage : ℚ
  defaultWinMultiplier : ℚ
deriving DecidableEq, Inhabited

/-- `calculateTradeRow` from the source: recomputes the derived core fields
of one trade from the running balance and the target.  The source's
`isNaN(...) ? fallback : value` guards never fire over `ℚ` and are omitted.
The source returns `{...trade, accountSize, riskAmount, floatingPL,
accountBalance, distanceToTarget}`, so `id`, `tradeNumber`,
`riskPercentage`, `outcome`, `winMultiplier` and `nextSuggestedRisk` are
carried over unchanged. -/
def calculateTradeRow (trade : Trade) (previousBalance target : ℚ) : Trade :=
  let accountSize := previousBalance
  let riskAmount := accountSize * (trade.riskPercentage / 100)
  let floatingPL : ℚ :=
    match trade.outcome with
    | TradeOutcome.win => riskAmount * trade.winMultiplier
    | TradeOutcome.loss => -riskAmount
    | TradeOutcome.partWin => riskAmount * trade.winMultiplier / 2
    | _ => 0
  let accountBalance := accountSize + floatingPL
  let distanceToTarget := target - accountBalance
  { trade with
    accountSize := accountSize
    riskAmount := riskAmount
    floatingPL := floatingPL
    accountBalance := accountBalance
    distanceToTarget := distanceToTarget }

/-- `calculateNextRisk` from the source.  `none` models `undefined`.  The
source's final `isNaN(risk) || !isFinite(risk) ? undefined : risk` check
never fires over `ℚ` (under the guard the divisor is strictly positive) and
is omitted. -/
def calculateNextRisk (currentBal target multiplier : ℚ) : Option ℚ :=
  let remainingNeeded := target - currentBal
  if remainingNeeded ≤ 0 ∨ currentBal ≤ 0 ∨ multiplier ≤ 0 then
    none
  else
    some (remainingNeeded / (currentBal * multiplier) * 100)

/-- The body of `recalculateTrades`: the source maps over the trades with a
closure-mutated `cumulativeBalance` and the element index; here that state
is passed explicitly (`bal` is the running balance, `idx` the 0-based index
of the first element of `ts`). -/
def recalcAux (cfg : Config) : ℚ → Nat → List Trade → List Trade
  | _, _, [] => []
  | bal, idx, t :: ts =>
    let core := calculateTradeRow t bal cfg.profitTarget
    let nextRisk :=
      calculateNextRisk core.accountBalance cfg.profitTarget cfg.defaultWinMultiplier
    { core with tradeNumber := idx + 1, nextSuggestedRisk := nextRisk }
      :: recalcAux cfg core.accountBalance (idx + 1) ts

/-- `recalculateTrades` from the source: full deterministic recomputation of
the ledger, starting from `cumulativeBalance = initialBalance`. -/
def recalculateTrades (cfg : Config) (trades : List Trade) : List Trade :=
  recalcAux cfg cfg.initialBalance 0 trades

/-- `handleAddTrade` from the source: appends a new trade with outcome
`pending`, the default win multiplier, and a risk percentage pre-filled from
the current suggested risk when it is defined, positive and below 50,
falling back to the default risk percentage.  The source builds the new
trade without the derived fields (they are `undefined` until the
recalculation effect runs); those fields are initialised to `0`/`none`
here.  `newId` stands for the fresh `uuidv4()`. -/
def handleAddTrade (cfg : Config) (trades : List Trade) (newId : String) : List Trade :=
  let lastBalance :=
    match trades.getLast? with
    | some t => t.accountBalance
    | none => cfg.initialBalance
  let currentRisk :=
    calculateNextRisk lastBalance cfg.profitTarget cfg.defaultWinMultiplier
  let riskToUse :=
    match currentRisk with
    | some r => if 0 < r ∧ r < 50 then r else cfg.defaultRiskPercentage
    | none => cfg.defaultRiskPercentage
  trades ++ [{ id := newId
               tradeNumber := 0
               accountSize := 0
               riskPercentage := riskToUse
               riskAmount := 0
               outcome := TradeOutcome.pending
               winMultiplier := cfg.defaultWinMultiplier
               floatingPL := 0
               accountBalance := 0
               distanceToTarget := 0
               nextSuggestedRisk := none }]

/-- `handleDeleteTrade` from the source composed with the recalculation
effect that follows every mutation: the trade with the given id is filtered
out and the remaining ledger recomputed from the initial balance. -/
def handleDeleteTrade (cfg : Config) (trades : List Trade) (delId : String) : List Trade :=
  recalculateTrades cfg (trades.filter fun t => t.id != delId)

/-- The two per-trade editable numeric fields of `handleUpdateTradeValue`. -/
inductive TradeField where
  | riskPercentage
  | winMultiplier
deriving DecidableEq, Inhabited

/-- Read the named editable field (`trade[field]` in the source). -/
def getField (t : Trade) : TradeField → ℚ
  | TradeField.riskPercentage => t.riskPercentage
  | TradeField.winMultiplier => t.winMultiplier

/-- Write the named editable field (`{...trade, [field]: value}`). -/
def setField (t : Trade) : TradeField → ℚ → Trade
  | TradeField.riskPercentage, v => { t with riskPercentage := v }
  | TradeField.winMultiplier, v => { t with winMultiplier := v }

/-- `handleUpdateTradeValue` from the source.  The `value : Option ℚ`
argument models `parseFloat(value)`: `none` is a non-numeric input (NaN).
A `none` or negative value is rejected (error toast) and the list returned
unchanged; otherwise the matching trade's field is set, other trades are
returned as-is. -/
def handleUpdateTradeValue (trades : List Trade) (id : String) (field : TradeField)
    (value : Option ℚ) : List Trade :=
  match value with
  | none => trades
  | some v =>
    if v < 0 then trades
    else
      trades.map fun t =>
        if t.id = id ∧ getField t field ≠ v then setField t field v else t

/-- Concrete fixture ids for the witness scenarios. -/
def idA : String := "a"

def idB : String := "b"

def idC : String := "c"

def idNew : String := "fresh-uuid"

/-- The spec's worked scenario: initial balance 10000, profit target 10800,
default risk 1, default win multiplier 6.5. -/
def cfgS : Config :=
  { initialBalance := 10000
    profitTarget := 10800
    defaultRiskPercentage := 1
    defaultWinMultiplier := 13/2 }

/-- The spec scenario's trade: risk 1%, multiplier 6.5, outcome win. -/
def tS : Trade :=
  { id := idA
    tradeNumber := 0
    accountSize := 0
    riskPercentage := 1
    riskAmount := 0
    outcome := TradeOutcome.win
    winMultiplier := 13/2
    floatingPL := 0
    accountBalance := 0
    distanceToTarget := 0
    nextSuggestedRisk := none }

/-- A losing trade used in multi-trade witness ledgers. -/
def tL : Trade :=
  { id := idB
    tradeNumber := 0
    accountSize := 0
    riskPercentage := 2
    riskAmount := 0
    outcome := TradeOutcome.loss
    winMultiplier := 3
    floatingPL := 0
    accountBalance := 0
    distanceToTarget := 0
    nextSuggestedRisk := none }

/-- A partial-win trade used in multi-trade witness ledgers. -/
def tP : Trade :=
  { id := idC
    tradeNumber := 0
    accountSize := 0
    riskPercentage := 1
    riskAmount := 0
    outcome := TradeOutcome.partWin
    winMultiplier := 4
    floatingPL := 0
    accountBalance := 0
    distanceToTarget := 0
    nextSuggestedRisk := none }

/-- A breakeven trade used in multi-trade witness ledgers. -/
def tB : Trade :=
  { id := idNew
    tradeNumber := 0
    accountSize := 0
    riskPercentage := 1
    riskAmount := 0
    outcome := TradeOutcome.breakeven
    winMultiplier := 2
    floatingPL := 0
    accountBalance := 0
    distanceToTarget := 0
    nextSuggestedRisk := none }

/-- A pending trade used in multi-trade witness ledgers. -/
def tQ : Trade :=
  { id := idA
    tradeNumber := 0
    accountSize := 0
    riskPercentage := 1
    riskAmount := 0
    outcome := TradeOutcome.pending
    winMultiplier := 2
    floatingPL := 0
    accountBalance := 0
    distanceToTarget := 0
    nextSuggestedRisk := none }

/-- Configuration whose suggested risk is 100% (not below the 50% ceiling),
so a newly added trade falls back to the default risk percentage. -/
def cfgN : Config :=
  { initialBalance := 100
    profitTarget := 200
    defaultRiskPercentage := 3
    defaultWinMultiplier := 1 }

/-- Configuration whose target is already met, so the suggested risk is
undefined and a newly added trade falls back to the default. -/
def cfgD : Config :=
  { initialBalance := 100
    profitTarget := 50
    defaultRiskPercentage := 3
    defaultWinMultiplier := 1 }

/-- Configuration for the sign counterexample: a winning trade that risks
0% produces a floating P/L of exactly 0. -/
def cfgZ : Config :=
  { initialBalance := 100
    profitTarget := 200
    defaultRiskPercentage := 1
    defaultWinMultiplier := 2 }

/-- A win-outcome trade with risk percentage 0. -/
def tZ : Trade :=
  { id := idA
    tradeNumber := 0
    accountSize := 0
    riskPercentage := 0
    riskAmount := 0
    outcome := TradeOutcome.win
    winMultiplier := 2
    floatingPL := 0
    accountBalance := 0
    distanceToTarget := 0
    nextSuggestedRisk := none }

/-- Configuration for the add-trade witness: balance 100, target 110,
default multiplier 1, so the suggested risk is exactly 10%. -/
def cfgW : Config :=
  { initialBalance := 100
    profitTarget := 110
    defaultRiskPercentage := 2
    defaultWinMultiplier := 1 }

/-- The per-row equations `recalculateTrades` establishes for the element at
0-based position `pos`: the derived fields are consistent with the row's own
starting balance (`accountSize`), outcome, risk and multiplier, and the
suggested next risk is taken at the row's ending balance with the
configuration's default win multiplier. -/
def rowEqns (cfg : Config) (pos : Nat) (u : Trade) : Prop :=
  u.tradeNumber = pos + 1 ∧
  u.riskAmount = u.accountSize * (u.riskPercentage / 100) ∧
  u.floatingPL = (match u.outcome with
    | TradeOutcome.win => u.riskAmount * u.winMultiplier
    | TradeOutcome.loss => -u.riskAmount
    | TradeOutcome.partWin => u.riskAmount * u.winMultiplier / 2
    | _ => 0) ∧
  u.accountBalance = u.accountSize + u.floatingPL ∧
  u.distanceToTarget = cfg.profitTarget - u.accountBalance ∧
  u.nextSuggestedRisk = calculateNextRisk u.accountBalance cfg.profitTarget cfg.defaultWinMultiplier

lemma recalcAux_length (cfg : Config) :
    ∀ (ts : List Trade) (bal : ℚ) (idx : Nat), (recalcAux cfg bal idx ts).length = ts.length := by
  intro ts
  induction ts with
  | nil => intro bal idx; rfl
  | cons t ts ih => intro bal idx; simp [recalcAux, ih]

lemma recalcAux_rowEqns (cfg : Config) :
    ∀ (ts : List Trade) (bal : ℚ) (idx i : Nat) (h : i < (recalcAux cfg bal idx ts).length),
      rowEqns cfg (idx + i) ((recalcAux cfg bal idx ts).get ⟨i, h⟩) := by
  intro ts
  induction ts with
  | nil => intro bal idx i h; simp [recalcAux] at h
  | cons t ts ih =>
    intro bal idx i h
    cases i with
    | zero =>
      refine ⟨by simp [recalcAux], rfl, rfl, rfl, rfl, rfl⟩
    | succ i =>
      have h' : i < (recalcAux cfg (calculateTradeRow t bal cfg.profitTarget).accountBalance (idx + 1) ts).length := by
        simpa [recalcAux, recalcAux_length] using h
      have := ih (calculateTradeRow t bal cfg.profitTarget).accountBalance (idx + 1) i h'
      simpa [recalcAux, Nat.add_assoc, Nat.add_comm 1 i] using this

lemma recalcAux_accountSize_zero (cfg : Config) :
    ∀ (ts : List Trade) (bal : ℚ) (idx : Nat) (h : 0 < (recalcAux cfg bal idx ts).length),
      ((recalcAux cfg bal idx ts).get ⟨0, h⟩).accountSize = bal := by
  intro ts
  cases ts with
  | nil => intro bal idx h; simp [recalcAux] at h
  | cons t ts => intro bal idx h; rfl

lemma recalcAux_chain (cfg : Config) :
    ∀ (ts : List Trade) (bal : ℚ) (idx i : Nat)
      (h1 : i < (recalcAux cfg bal idx ts).length)
      (h2 : i + 1 < (recalcAux cfg bal idx ts).length),
      ((recalcAux cfg bal idx ts).get ⟨i + 1, h2⟩).accountSize
        = ((recalcAux cfg bal idx ts).get ⟨i, h1⟩).accountBalance := by
  intro ts
  induction ts with
  | nil => intro bal idx i h1 h2; simp [recalcAux] at h1
  | cons t ts ih =>
    intro bal idx i h1 h2
    cases i with
    | zero =>
      have h0 : 0 < (recalcAux cfg (calculateTradeRow t bal cfg.profitTarget).accountBalance (idx + 1) ts).length := by
        simpa [recalcAux, recalcAux_length] using h2
      have := recalcAux_accountSize_zero cfg ts (calculateTradeRow t bal cfg.profitTarget).accountBalance (idx + 1) h0
      simpa [recalcAux] using this
    | succ i =>
      have h1' : i < (recalcAux cfg (calculateTradeRow t bal cfg.profitTarget).accountBalance (idx + 1) ts).length := by
        simpa [recalcAux, recalcAux_length] using h1
      have h2' : i + 1 < (recalcAux cfg (calculateTradeRow t bal cfg.profitTarget).accountBalance (idx + 1) ts).length := by
        simpa [recalcAux, recalcAux_length] using h2
      have := ih (calculateTradeRow t bal cfg.profitTarget).accountBalance (idx + 1) i h1' h2'
      simpa [recalcAux] using this

lemma recalcAux_frame (cfg : Config) :
    ∀ (ts : List Trade) (bal : ℚ) (idx i : Nat)
      (h : i < (recalcAux cfg bal idx ts).length) (h' : i < ts.length),
      ((recalcAux cfg bal idx ts).get ⟨i, h⟩).id = (ts.get ⟨i, h'⟩).id ∧
      ((recalcAux cfg bal idx ts).get ⟨i, h⟩).riskPercentage = (ts.get ⟨i, h'⟩).riskPercentage ∧
      ((recalcAux cfg bal idx ts).get ⟨i, h⟩).winMultiplier = (ts.get ⟨i, h'⟩).winMultiplier ∧
      ((recalcAux cfg bal idx ts).get ⟨i, h⟩).outcome = (ts.get ⟨i, h'⟩).outcome := by
  intro ts
  induction ts with
  | nil => intro bal idx i h h'; simp at h'
  | cons t ts ih =>
    intro bal idx i h h'
    cases i with
    | zero => exact ⟨rfl, rfl, rfl, rfl⟩
    | succ i =>
      have hh : i < (recalcAux cfg (calculateTradeRow t bal cfg.profitTarget).accountBalance (idx + 1) ts).length := by
        simpa [recalcAux, recalcAux_length] using h
      have hh' : i < ts.length := by simpa using h'
      have := ih (calculateTradeRow t bal cfg.profitTarget).accountBalance (idx + 1) i hh hh'
      simpa [recalcAux] using this

lemma recalcAux_idem (cfg : Config) :
    ∀ (ts : List Trade) (bal : ℚ) (idx : Nat),
      recalcAux cfg bal idx (recalcAux cfg bal idx ts) = recalcAux cfg bal idx ts := by
  intro ts
  induction ts with
  | nil => intro bal idx; rfl
  | cons t ts ih =>
    intro bal idx
    refine Eq.trans (b :=
      ({ calculateTradeRow t bal cfg.profitTarget with
          tradeNumber := idx + 1,
          nextSuggestedRisk := calculateNextRisk
            (calculateTradeRow t bal cfg.profitTarget).accountBalance
            cfg.profitTarget cfg.defaultWinMultiplier })
        :: recalcAux cfg (calculateTradeRow t bal cfg.profitTarget).accountBalance (idx + 1)
             (recalcAux cfg (calculateTradeRow t bal cfg.profitTarget).accountBalance (idx + 1) ts)) ?_ ?_
    · rfl
    · rw [ih]; rfl

/-- Writing a field and reading it back yields the written value. -/
lemma getField_setField (t : Trade) (f : TradeField) (v : ℚ) :
    getField (setField t f v) f = v := by
  cases f <;> rfl

/-- Writing a field with its current value is the identity. -/
lemma setField_self (t : Trade) (f : TradeField) :
    setField t f (getField t f) = t := by
  cases f <;> rfl

/-- `setField` leaves every field other than the written one unchanged. -/
lemma setField_frame (t : Trade) (f : TradeField) (v : ℚ) :
    (setField t f v).id = t.id ∧ (setField t f v).outcome = t.outcome ∧
    ∀ g, g ≠ f → getField (setField t f v) g = getField t g := by
  refine ⟨by cases f <;> rfl, by cases f <;> rfl, ?_⟩
  intro g hg
  cases f <;> cases g <;> first | rfl | exact absurd rfl hg

/-- C1: For every configuration and every trade list, `recalculateTrades`
derives each trade's fields in sequence order from the running balance
(the trade's `accountSize`, which is the initial balance for the first
trade and the previous trade's ending balance afterwards):
`riskAmount = balance * (riskPercentage / 100)`; `floatingPL` is
`riskAmount * winMultiplier` for a win, half that for a partial win,
`-riskAmount` for a loss and `0` for breakeven or pending;
`accountBalance = balance + floatingPL`; and
`distanceToTarget = profitTarget - accountBalance`. -/
theorem recompute_derives_fields (cfg : Config) (ts : List Trade) (i : Nat)
    (h : i < (recalculateTrades cfg ts).length) :
    (i = 0 → ((recalculateTrades cfg ts).get ⟨i, h⟩).accountSize = cfg.initialBalance) ∧
    (i ≠ 0 → ∀ h2 : i - 1 < (recalculateTrades cfg ts).length,
      ((recalculateTrades cfg ts).get ⟨i, h⟩).accountSize
        = ((recalculateTrades cfg ts).get ⟨i - 1, h2⟩).accountBalance) ∧
    ((recalculateTrades cfg ts).get ⟨i, h⟩).riskAmount
      = ((recalculateTrades cfg ts).get ⟨i, h⟩).accountSize
        * (((recalculateTrades cfg ts).get ⟨i, h⟩).riskPercentage / 100) ∧
    ((recalculateTrades cfg ts).get ⟨i, h⟩).floatingPL
      = (match ((recalculateTrades cfg ts).get ⟨i, h⟩).outcome with
         | TradeOutcome.win =>
             ((recalculateTrades cfg ts).get ⟨i, h⟩).riskAmount
               * ((recalculateTrades cfg ts).get ⟨i, h⟩).winMultiplier
         | TradeOutcome.loss => -((recalculateTrades cfg ts).get ⟨i, h⟩).riskAmount
         | TradeOutcome.partWin =>
             ((recalculateTrades cfg ts).get ⟨i, h⟩).riskAmount
               * ((recalculateTrades cfg ts).get ⟨i, h⟩).winMultiplier / 2
         | _ => 0) ∧
    ((recalculateTrades cfg ts).get ⟨i, h⟩).accountBalance
      = ((recalculateTrades cfg ts).get ⟨i, h⟩).accountSize
        + ((recalculateTrades cfg ts).get ⟨i, h⟩).floatingPL ∧
    ((recalculateTrades cfg ts).get ⟨i, h⟩).distanceToTarget
      = cfg.profitTarget - ((recalculateTrades cfg ts).get ⟨i, h⟩).accountBalance := by
  have hrow := recalcAux_rowEqns cfg ts cfg.initialBalance 0 i h
  refine ⟨?_, ?_, hrow.2.1, hrow.2.2.1, hrow.2.2.2.1, hrow.2.2.2.2.1⟩
  · intro hi
    subst hi
    exact recalcAux_accountSize_zero cfg ts cfg.initialBalance 0 h
  · intro hne h2
    rcases Nat.exists_eq_succ_of_ne_zero hne with ⟨j, hj⟩
    subst hj
    simpa using recalcAux_chain cfg ts cfg.initialBalance 0 j (by simpa using h2) h

/-- Witness for C1: the spec's scenario (10000 start, one 1%-risk win at
multiplier 6.5) satisfies the derived-field equations at the first row,
and in a two-trade ledger the second row starts at the first row's ending
balance. -/
theorem recompute_derives_fields_witness :
    (recalculateTrades cfgS [tS]).headI.accountSize = cfgS.initialBalance ∧
    (recalculateTrades cfgS [tS]).headI.riskAmount
      = (recalculateTrades cfgS [tS]).headI.accountSize
        * ((recalculateTrades cfgS [tS]).headI.riskPercentage / 100) ∧
    (recalculateTrades cfgS [tS]).headI.accountBalance
      = (recalculateTrades cfgS [tS]).headI.accountSize
        + (recalculateTrades cfgS [tS]).headI.floatingPL ∧
    ((recalculateTrades cfgS [tS, tL]).get ⟨1, by decide⟩).accountSize
      = ((recalculateTrades cfgS [tS, tL]).get ⟨0, by decide⟩).accountBalance := by
  have hlen : 0 < (recalculateTrades cfgS [tS]).length := by
    simp [recalculateTrades, recalcAux_length]
  have h := recompute_derives_fields cfgS [tS] 0 hlen
  exact ⟨h.1 rfl, h.2.2.1, h.2.2.2.2.1,
    (recompute_derives_fields cfgS [tS, tL] 1 (by decide)).2.1 (by decide) (by decide)⟩

/-- C2: in the output of `recalculateTrades` the starting balance
(`accountSize`) of the first trade is the configuration's initial balance,
and every later trade's starting balance is the previous trade's ending
balance (`accountBalance`). -/
theorem recompute_balance_chain (cfg : Config) (ts : List Trade) :
    (∀ h : 0 < (recalculateTrades cfg ts).length,
      ((recalculateTrades cfg ts).get ⟨0, h⟩).accountSize = cfg.initialBalance) ∧
    (∀ (i : Nat) (h1 : i < (recalculateTrades cfg ts).length)
      (h2 : i + 1 < (recalculateTrades cfg ts).length),
      ((recalculateTrades cfg ts).get ⟨i + 1, h2⟩).accountSize
        = ((recalculateTrades cfg ts).get ⟨i, h1⟩).accountBalance) :=
  ⟨fun h => recalcAux_accountSize_zero cfg ts cfg.initialBalance 0 h,
   fun i h1 h2 => recalcAux_chain cfg ts cfg.initialBalance 0 i h1 h2⟩

/-- Witness for C2 on a two-trade ledger: the second trade starts at the
first trade's ending balance, and the first trade starts at the initial
balance. -/
theorem recompute_balance_chain_witness :
    ((recalculateTrades cfgS [tS, tL]).get
        ⟨1, by simp [recalculateTrades, recalcAux_length]⟩).accountSize
      = ((recalculateTrades cfgS [tS, tL]).get
          ⟨0, by simp [recalculateTrades, recalcAux_length]⟩).accountBalance ∧
    ((recalculateTrades cfgS [tS, tL]).get
        ⟨0, by simp [recalculateTrades, recalcAux_length]⟩).accountSize
      = cfgS.initialBalance := by
  have h := recompute_balance_chain cfgS [tS, tL]
  exact ⟨h.2 0 (by simp [recalculateTrades, recalcAux_length])
          (by simp [recalculateTrades, recalcAux_length]),
        h.1 (by simp [recalculateTrades, recalcAux_length])⟩

/-- C3: the suggested risk is `none` exactly when
`target - balance ≤ 0` or `balance ≤ 0` or `multiplier ≤ 0` (in
particular whenever the balance has reached the target), and otherwise is
`((target - balance) / (balance * multiplier)) * 100`.  Over exact
rational arithmetic a non-finite result cannot arise, so the source's
NaN/infinity fallback never fires. -/
theorem calculateNextRisk_spec (b t m : ℚ) :
    (calculateNextRisk b t m = none ↔ t - b ≤ 0 ∨ b ≤ 0 ∨ m ≤ 0) ∧
    (t ≤ b → calculateNextRisk b t m = none) ∧
    (0 < t - b → 0 < b → 0 < m →
      calculateNextRisk b t m = some ((t - b) / (b * m) * 100)) := by
  simp only [calculateNextRisk]
  split_ifs with hc
  · refine ⟨iff_of_true rfl hc, fun _ => rfl, ?_⟩
    intro h1 h2 h3
    rcases hc with hc | hc | hc <;> linarith
  · push_neg at hc
    obtain ⟨hc1, hc2, hc3⟩ := hc
    refine ⟨?_, ?_, fun _ _ _ => rfl⟩
    · constructor
      · intro hx
        exact absurd hx (by simp)
      · intro hx
        rcases hx with hx | hx | hx <;> linarith
    · intro hle
      linarith

/-- Witness for C3: from balance 10650 towards target 10800 at multiplier
6.5 the suggestion is defined and equal to the formula; once the balance
equals the target it is undefined. -/
theorem calculateNextRisk_spec_witness :
    calculateNextRisk 10650 10800 (13/2)
      = some ((10800 - 10650) / (10650 * (13/2)) * 100) ∧
    calculateNextRisk 10800 10800 (13/2) = none := by
  exact ⟨(calculateNextRisk_spec 10650 10800 (13/2)).2.2
            (by norm_num) (by norm_num) (by norm_num),
         (calculateNextRisk_spec 10800 10800 (13/2)).2.1 (by norm_num)⟩

/-- C4: `recalculateTrades` is idempotent: recomputing an
already-recomputed ledger yields the identical list. -/
theorem recompute_idempotent (cfg : Config) (ts : List Trade) :
    recalculateTrades cfg (recalculateTrades cfg ts) = recalculateTrades cfg ts :=
  recalcAux_idem cfg ts cfg.initialBalance 0

/-- C5: deleting a trade (filtering out its id) followed by recomputation
yields exactly the remaining trades in their original relative order, with
`tradeNumber` renumbered contiguously from 1 and balances recomputed
starting from the configuration's initial balance. -/
theorem delete_trade_spec (cfg : Config) (ts : List Trade) (delId : String) :
    (handleDeleteTrade cfg ts delId).length = (ts.filter fun t => t.id != delId).length ∧
    (∀ (i : Nat) (h : i < (handleDeleteTrade cfg ts delId).length)
      (h' : i < (ts.filter fun t => t.id != delId).length),
      ((handleDeleteTrade cfg ts delId).get ⟨i, h⟩).id
        = ((ts.filter fun t => t.id != delId).get ⟨i, h'⟩).id ∧
      ((handleDeleteTrade cfg ts delId).get ⟨i, h⟩).riskPercentage
        = ((ts.filter fun t => t.id != delId).get ⟨i, h'⟩).riskPercentage ∧
      ((handleDeleteTrade cfg ts delId).get ⟨i, h⟩).winMultiplier
        = ((ts.filter fun t => t.id != delId).get ⟨i, h'⟩).winMultiplier ∧
      ((handleDeleteTrade cfg ts delId).get ⟨i, h⟩).outcome
        = ((ts.filter fun t => t.id != delId).get ⟨i, h'⟩).outcome) ∧
    (∀ (i : Nat) (h : i < (handleDeleteTrade cfg ts delId).length),
      ((handleDeleteTrade cfg ts delId).get ⟨i, h⟩).tradeNumber = i + 1) ∧
    (∀ h : 0 < (handleDeleteTrade cfg ts delId).length,
      ((handleDeleteTrade cfg ts delId).get ⟨0, h⟩).accountSize = cfg.initialBalance) ∧
    (∀ (i : Nat) (h1 : i < (handleDeleteTrade cfg ts delId).length)
      (h2 : i + 1 < (handleDeleteTrade cfg ts delId).length),
      ((handleDeleteTrade cfg ts delId).get ⟨i + 1, h2⟩).accountSize
        = ((handleDeleteTrade cfg ts delId).get ⟨i, h1⟩).accountBalance) := by
  refine ⟨recalcAux_length cfg (ts.filter fun t => t.id != delId) cfg.initialBalance 0,
    ?_, ?_, ?_, ?_⟩
  · intro i h h'
    exact recalcAux_frame cfg (ts.filter fun t => t.id != delId) cfg.initialBalance 0 i h h'
  · intro i h
    have := (recalcAux_rowEqns cfg (ts.filter fun t => t.id != delId)
      cfg.initialBalance 0 i h).1
    simpa using this
  · intro h
    exact recalcAux_accountSize_zero cfg (ts.filter fun t => t.id != delId) cfg.initialBalance 0 h
  · intro i h1 h2
    exact recalcAux_chain cfg (ts.filter fun t => t.id != delId) cfg.initialBalance 0 i h1 h2

/-- Witness for C5: deleting the middle trade of a three-trade ledger
leaves two trades, the survivors keep their ids in order, the second
survivor is renumbered to 2, and the first restarts at the initial
balance. -/
theorem delete_trade_spec_witness :
    (handleDeleteTrade cfgS [tS, tL, tP] idB).length = 2 ∧
    ((handleDeleteTrade cfgS [tS, tL, tP] idB).get ⟨1, by decide⟩).tradeNumber = 2 ∧
    ((handleDeleteTrade cfgS [tS, tL, tP] idB).get ⟨0, by decide⟩).accountSize
      = cfgS.initialBalance ∧
    ((handleDeleteTrade cfgS [tS, tL, tP] idB).get ⟨1, by decide⟩).id = idC ∧
    ((handleDeleteTrade cfgS [tS, tL, tP] idB).get ⟨1, by decide⟩).accountSize
      = ((handleDeleteTrade cfgS [tS, tL, tP] idB).get ⟨0, by decide⟩).accountBalance := by
  have h := delete_trade_spec cfgS [tS, tL, tP] idB
  refine ⟨h.1.trans (by decide), h.2.2.1 1 (by decide), h.2.2.2.1 (by decide), ?_,
    h.2.2.2.2 0 (by decide) (by decide)⟩
  have hframe := h.2.1 1 (by decide) (by decide)
  rw [hframe.1]
  decide

/-- C6: `handleAddTrade` appends one new trade with outcome `pending`, win
multiplier equal to the configuration's default, and a risk percentage
pre-filled with the suggested risk computed from the current ending
balance (the initial balance when the ledger is empty) when that
suggestion is defined, strictly positive and strictly below 50, and the
configured default risk percentage otherwise. -/
theorem addTrade_spec (cfg : Config) (ts : List Trade) (newId : String) :
    handleAddTrade cfg ts newId
      = ts ++ [(handleAddTrade cfg ts newId).getLastD default] ∧
    ((handleAddTrade cfg ts newId).getLastD default).outcome = TradeOutcome.pending ∧
    ((handleAddTrade cfg ts newId).getLastD default).winMultiplier
      = cfg.defaultWinMultiplier ∧
    ((handleAddTrade cfg ts newId).getLastD default).id = newId ∧
    (∀ r : ℚ, calculateNextRisk
        (match ts.getLast? with
         | some u => u.accountBalance
         | none => cfg.initialBalance) cfg.profitTarget cfg.defaultWinMultiplier = some r →
      (0 < r ∧ r < 50 →
        ((handleAddTrade cfg ts newId).getLastD default).riskPercentage = r) ∧
      (¬(0 < r ∧ r < 50) →
        ((handleAddTrade cfg ts newId).getLastD default).riskPercentage
          = cfg.defaultRiskPercentage)) ∧
    (calculateNextRisk
        (match ts.getLast? with
         | some u => u.accountBalance
         | none => cfg.initialBalance) cfg.profitTarget cfg.defaultWinMultiplier = none →
      ((handleAddTrade cfg ts newId).getLastD default).riskPercentage
        = cfg.defaultRiskPercentage) := by
  have hlast : (handleAddTrade cfg ts newId).getLastD default
      = { id := newId
          tradeNumber := 0
          accountSize := 0
          riskPercentage :=
            match calculateNextRisk
              (match ts.getLast? with
               | some u => u.accountBalance
               | none => cfg.initialBalance) cfg.profitTarget cfg.defaultWinMultiplier with
            | some r => if 0 < r ∧ r < 50 then r else cfg.defaultRiskPercentage
            | none => cfg.defaultRiskPercentage
          riskAmount := 0
          outcome := TradeOutcome.pending
          winMultiplier := cfg.defaultWinMultiplier
          floatingPL := 0
          accountBalance := 0
          distanceToTarget := 0
          nextSuggestedRisk := none } := by
    simp only [handleAddTrade]
    exact List.getLastD_concat _ _ _
  refine ⟨?_, by rw [hlast], by rw [hlast], by rw [hlast], ?_, ?_⟩
  · rw [hlast]
    simp only [handleAddTrade]
  · intro r hr
    constructor
    · intro hrange
      rw [hlast]
      simp only [hr]
      exact if_pos hrange
    · intro hrange
      rw [hlast]
      simp only [hr]
      exact if_neg hrange
  · intro hr
    rw [hlast]
    simp only [hr]

/-- Witness for C6: starting from balance 100 with target 110 and default
multiplier 1 the suggested risk is 10%, which is positive and below 50, so
the appended trade is pre-filled with exactly that risk, outcome
`pending`, and the default multiplier. -/
theorem addTrade_spec_witness :
    ((handleAddTrade cfgW [] idNew).getLastD default).riskPercentage = 10 ∧
    ((handleAddTrade cfgW [] idNew).getLastD default).outcome = TradeOutcome.pending ∧
    ((handleAddTrade cfgW [] idNew).getLastD default).winMultiplier
      = cfgW.defaultWinMultiplier ∧
    ((handleAddTrade cfgN [] idNew).getLastD default).riskPercentage
      = cfgN.defaultRiskPercentage ∧
    ((handleAddTrade cfgD [] idNew).getLastD default).riskPercentage
      = cfgD.defaultRiskPercentage := by
  have h := addTrade_spec cfgW [] idNew
  have hsome : calculateNextRisk
      (match ([] : List Trade).getLast? with
       | some u => u.accountBalance
       | none => cfgW.initialBalance) cfgW.profitTarget cfgW.defaultWinMultiplier
      = some 10 := by
    norm_num [calculateNextRisk, cfgW]
  have hbig : calculateNextRisk
      (match ([] : List Trade).getLast? with
       | some u => u.accountBalance
       | none => cfgN.initialBalance) cfgN.profitTarget cfgN.defaultWinMultiplier
      = some 100 := by
    norm_num [calculateNextRisk, cfgN]
  have hnone : calculateNextRisk
      (match ([] : List Trade).getLast? with
       | some u => u.accountBalance
       | none => cfgD.initialBalance) cfgD.profitTarget cfgD.defaultWinMultiplier
      = none := by
    norm_num [calculateNextRisk, cfgD]
  exact ⟨(h.2.2.2.2.1 10 hsome).1 (by norm_num), h.2.1, h.2.2.1,
    ((addTrade_spec cfgN [] idNew).2.2.2.2.1 100 hbig).2 (by norm_num),
    (addTrade_spec cfgD [] idNew).2.2.2.2.2 hnone⟩

/-- C7 counterexample: the claim "floatingPL is strictly positive for
outcome win" fails as stated: a winning trade whose risk percentage is 0
has riskAmount 0 and hence floatingPL exactly 0, not positive. -/
theorem floatingPL_sign_counterexample :
    (recalculateTrades cfgZ [tZ]).headI.outcome = TradeOutcome.win ∧
    ¬ 0 < (recalculateTrades cfgZ [tZ]).headI.floatingPL := by
  constructor
  · rfl
  · norm_num [recalculateTrades, recalcAux, calculateTradeRow, cfgZ, tZ, List.headI]

/-- C7 (amended): for every trade produced by `recalculateTrades`, provided
the trade's risk amount is strictly positive (and, for the win cases, its
win multiplier too), the sign of `floatingPL` matches the outcome:
strictly positive for win and partial win, strictly negative for loss; for
breakeven and pending it is zero unconditionally. -/
theorem floatingPL_sign_cases (cfg : Config) (ts : List Trade) (i : Nat)
    (h : i < (recalculateTrades cfg ts).length) :
    (((recalculateTrades cfg ts).get ⟨i, h⟩).outcome = TradeOutcome.win →
      0 < ((recalculateTrades cfg ts).get ⟨i, h⟩).riskAmount →
      0 < ((recalculateTrades cfg ts).get ⟨i, h⟩).winMultiplier →
      0 < ((recalculateTrades cfg ts).get ⟨i, h⟩).floatingPL) ∧
    (((recalculateTrades cfg ts).get ⟨i, h⟩).outcome = TradeOutcome.partWin →
      0 < ((recalculateTrades cfg ts).get ⟨i, h⟩).riskAmount →
      0 < ((recalculateTrades cfg ts).get ⟨i, h⟩).winMultiplier →
      0 < ((recalculateTrades cfg ts).get ⟨i, h⟩).floatingPL) ∧
    (((recalculateTrades cfg ts).get ⟨i, h⟩).outcome = TradeOutcome.loss →
      0 < ((recalculateTrades cfg ts).get ⟨i, h⟩).riskAmount →
      ((recalculateTrades cfg ts).get ⟨i, h⟩).floatingPL < 0) ∧
    (((recalculateTrades cfg ts).get ⟨i, h⟩).outcome = TradeOutcome.breakeven →
      ((recalculateTrades cfg ts).get ⟨i, h⟩).floatingPL = 0) ∧
    (((recalculateTrades cfg ts).get ⟨i, h⟩).outcome = TradeOutcome.pending →
      ((recalculateTrades cfg ts).get ⟨i, h⟩).floatingPL = 0) := by
  have hfl := (recalcAux_rowEqns cfg ts cfg.initialBalance 0 i h).2.2.1
  simp only [recalculateTrades]
  refine ⟨?_, ?_, ?_, ?_, ?_⟩
  · intro ho hra hwm
    rw [hfl, ho]
    exact mul_pos hra hwm
  · intro ho hra hwm
    rw [hfl, ho]
    exact div_pos (mul_pos hra hwm) two_pos
  · intro ho hra
    rw [hfl, ho]
    exact neg_lt_zero.mpr hra
  · intro ho
    rw [hfl, ho]
  · intro ho
    rw [hfl, ho]

/-- Witness for the amended C7: on a five-trade ledger exercising every
outcome with positive risk amounts and multipliers, the floating P/L is
positive for the win and the partial win, negative for the loss, and zero
for the breakeven and the pending trade. -/
theorem floatingPL_sign_cases_witness :
    0 < ((recalculateTrades cfgS [tS, tL, tP, tB, tQ]).get ⟨0, by decide⟩).floatingPL ∧
    ((recalculateTrades cfgS [tS, tL, tP, tB, tQ]).get ⟨1, by decide⟩).floatingPL < 0 ∧
    0 < ((recalculateTrades cfgS [tS, tL, tP, tB, tQ]).get ⟨2, by decide⟩).floatingPL ∧
    ((recalculateTrades cfgS [tS, tL, tP, tB, tQ]).get ⟨3, by decide⟩).floatingPL = 0 ∧
    ((recalculateTrades cfgS [tS, tL, tP, tB, tQ]).get ⟨4, by decide⟩).floatingPL = 0 := by
  refine ⟨(floatingPL_sign_cases cfgS [tS, tL, tP, tB, tQ] 0 (by decide)).1 rfl ?_ ?_,
    (floatingPL_sign_cases cfgS [tS, tL, tP, tB, tQ] 1 (by decide)).2.2.1 rfl ?_,
    (floatingPL_sign_cases cfgS [tS, tL, tP, tB, tQ] 2 (by decide)).2.1 rfl ?_ ?_,
    (floatingPL_sign_cases cfgS [tS, tL, tP, tB, tQ] 3 (by decide)).2.2.2.1 rfl,
    (floatingPL_sign_cases cfgS [tS, tL, tP, tB, tQ] 4 (by decide)).2.2.2.2 rfl⟩ <;>
  norm_num [recalculateTrades, recalcAux, calculateTradeRow, cfgS, tS, tL, tP, tB, tQ,
    List.get]

/-- C8: a non-numeric (`none`) or negative edit of risk percentage or win
multiplier leaves the trade list completely unchanged; a numeric
non-negative edit sets exactly the named field of every trade with the
given id and returns every other trade untouched (elementwise, order and
length preserved).  `setField` changes only the named field. -/
theorem updateTradeValue_spec (ts : List Trade) (id : String) (f : TradeField) :
    handleUpdateTradeValue ts id f none = ts ∧
    (∀ v : ℚ, v < 0 → handleUpdateTradeValue ts id f (some v) = ts) ∧
    (∀ v : ℚ, 0 ≤ v →
      (handleUpdateTradeValue ts id f (some v)).length = ts.length ∧
      (∀ i : Nat, (handleUpdateTradeValue ts id f (some v))[i]?
        = (ts[i]?).map fun t => if t.id = id then setField t f v else t)) ∧
    (∀ (t : Trade) (v : ℚ),
      getField (setField t f v) f = v ∧
      (setField t f v).id = t.id ∧
      (setField t f v).outcome = t.outcome ∧
      ∀ g : TradeField, g ≠ f → getField (setField t f v) g = getField t g) := by
  refine ⟨rfl, ?_, ?_, ?_⟩
  · intro v hv
    simp only [handleUpdateTradeValue]
    rw [if_pos hv]
  · intro v hv
    have hout : handleUpdateTradeValue ts id f (some v)
        = ts.map fun t => if t.id = id ∧ getField t f ≠ v then setField t f v else t := by
      simp only [handleUpdateTradeValue]
      rw [if_neg (not_lt.mpr hv)]
    constructor
    · rw [hout, List.length_map]
    · intro i
      rw [hout, List.getElem?_map]
      cases hti : ts[i]? with
      | none => rfl
      | some t =>
        simp only [Option.map_some']
        congr 1
        by_cases h1 : t.id = id
        · by_cases h2 : getField t f = v
          · rw [if_neg, if_pos h1, ← h2, setField_self]
            rintro ⟨-, hx⟩
            exact hx h2
          · rw [if_pos ⟨h1, h2⟩, if_pos h1]
        · rw [if_neg, if_neg h1]
          rintro ⟨hx, -⟩
          exact h1 hx
  · intro t v
    exact ⟨getField_setField t f v, (setField_frame t f v).1, (setField_frame t f v).2.1,
      (setField_frame t f v).2.2⟩

/-- Witness for C8: on a one-trade ledger, the negative edit `-1` is
rejected leaving the list unchanged, and the edit `2` updates the risk
percentage of the identified trade. -/
theorem updateTradeValue_spec_witness :
    handleUpdateTradeValue [tS] idA TradeField.riskPercentage (some (-1)) = [tS] ∧
    (handleUpdateTradeValue [tS] idA TradeField.riskPercentage (some 2))[0]?
      = some (setField tS TradeField.riskPercentage 2) ∧
    getField (setField tS TradeField.riskPercentage 2) TradeField.riskPercentage = 2 ∧
    getField (setField tS TradeField.riskPercentage 2) TradeField.winMultiplier
      = getField tS TradeField.winMultiplier := by
  have h := updateTradeValue_spec [tS] idA TradeField.riskPercentage
  refine ⟨h.2.1 (-1) (by norm_num), ?_,
    (h.2.2.2 tS 2).1, (h.2.2.2 tS 2).2.2.2 TradeField.winMultiplier (by decide)⟩
  have h3 := (h.2.2.1 2 (by norm_num)).2 0
  rw [h3]
  simp [tS]

/-- C9 (implicit): the per-trade `nextSuggestedRisk` attached by
`recalculateTrades`, and the risk used to pre-fill a newly appended
trade, are computed with the configuration's default win multiplier as the
multiplier argument — never the individual trade's own multiplier. -/
theorem suggestedRisk_uses_default_multiplier (cfg : Config) (ts : List Trade)
    (newId : String) (i : Nat) (h : i < (recalculateTrades cfg ts).length) :
    ((recalculateTrades cfg ts).get ⟨i, h⟩).nextSuggestedRisk
      = calculateNextRisk ((recalculateTrades cfg ts).get ⟨i, h⟩).accountBalance
          cfg.profitTarget cfg.defaultWinMultiplier ∧
    ((handleAddTrade cfg ts newId).getLastD default).riskPercentage
      = (match calculateNextRisk
            (match ts.getLast? with
             | some u => u.accountBalance
             | none => cfg.initialBalance) cfg.profitTarget cfg.defaultWinMultiplier with
         | some r => if 0 < r ∧ r < 50 then r else cfg.defaultRiskPercentage
         | none => cfg.defaultRiskPercentage) := by
  constructor
  · exact (recalcAux_rowEqns cfg ts cfg.initialBalance 0 i h).2.2.2.2.2
  · simp only [handleAddTrade]
    rw [List.getLastD_concat]

/-- Witness for C9: in the spec scenario the first trade's suggested next
risk equals `calculateNextRisk` taken at its ending balance with the
default multiplier. -/
theorem suggestedRisk_uses_default_multiplier_witness :
    (recalculateTrades cfgS [tS]).headI.nextSuggestedRisk
      = calculateNextRisk (recalculateTrades cfgS [tS]).headI.accountBalance
          cfgS.profitTarget cfgS.defaultWinMultiplier := by
  have hlen : 0 < (recalculateTrades cfgS [tS]).length := by
    simp [recalculateTrades, recalcAux_length]
  exact (suggestedRisk_uses_default_multiplier cfgS [tS] idNew 0 hlen).1

/-- C10 (implicit): `recalculateTrades` preserves the list's length and
order, and leaves each trade's user-entered fields `id`,
`riskPercentage`, `winMultiplier` and `outcome` unchanged. -/
theorem recompute_frame_spec (cfg : Config) (ts : List Trade) :
    (recalculateTrades cfg ts).length = ts.length ∧
    ∀ (i : Nat) (h : i < (recalculateTrades cfg ts).length) (h' : i < ts.length),
      ((recalculateTrades cfg ts).get ⟨i, h⟩).id = (ts.get ⟨i, h'⟩).id ∧
      ((recalculateTrades cfg ts).get ⟨i, h⟩).riskPercentage = (ts.get ⟨i, h'⟩).riskPercentage ∧
      ((recalculateTrades cfg ts).get ⟨i, h⟩).winMultiplier = (ts.get ⟨i, h'⟩).winMultiplier ∧
      ((recalculateTrades cfg ts).get ⟨i, h⟩).outcome = (ts.get ⟨i, h'⟩).outcome :=
  ⟨recalcAux_length cfg ts cfg.initialBalance 0,
   fun i h h' => recalcAux_frame cfg ts cfg.initialBalance 0 i h h'⟩

/-- Witness for C10: a two-trade ledger keeps its length and the second
trade keeps its outcome after recomputation. -/
theorem recompute_frame_spec_witness :
    (recalculateTrades cfgS [tS, tL]).length = 2 ∧
    ((recalculateTrades cfgS [tS, tL]).get ⟨1, by decide⟩).outcome = TradeOutcome.loss := by
  have h := recompute_frame_spec cfgS [tS, tL]
  refine ⟨h.1.trans (by decide), ?_⟩
  have hout := (h.2 1 (by decide) (by decide)).2.2.2
  rw [hout]
  decide
